import Mathlib

/-!
# FinTechAI — verification of the Threshold Monitoring & Alert Engine spec

Shallow embedding of the FinTechAI frontend sources (React/TypeScript) and,
where the deciding code lives server-side and is absent from the repository
snapshot, models built from the specification's own words (each such
definition is marked `Modelled from the spec:`).

Prices and thresholds are embedded as rationals (`ℚ`): the TypeScript code
performs only comparisons and arithmetic-free branching on them, so the
floating-point representation is irrelevant to every property proved here.
JavaScript truthiness of optional values is embedded as `Option`
(`none` = absent/falsy), and string truthiness as emptiness where the code
branches on it.
-/

namespace FinTechAI

/-- Last alert direction of a watched instrument (`NONE | UP | DOWN`). -/
inductive Direction where
  | NONE
  | UP
  | DOWN
deriving DecidableEq, Repr

/-- Pure output of the Crossing Detector: `{fires, direction}`. -/
structure CrossingDecision where
  fires : Bool
  direction : Direction
deriving DecidableEq, Repr

namespace CrossingDetector

/-- Modelled from the spec: the Crossing Detector
`decide(prev_direction, price, upper, lower)` of §4.1.  The detector itself is
server-side code absent from the repository snapshot; this follows the four
policy bullets literally: fire UP when `price > upper` and `prev ≠ UP`;
fire DOWN when `price < lower` and `prev ≠ DOWN`; reset to `NONE` without
firing when `lower ≤ price ≤ upper`; otherwise keep the direction and do not
fire. -/
def decide (prev : Direction) (price upper lower : ℚ) : CrossingDecision :=
  if price > upper then
    if prev ≠ Direction.UP then ⟨true, Direction.UP⟩ else ⟨false, prev⟩
  else if price < lower then
    if prev ≠ Direction.DOWN then ⟨true, Direction.DOWN⟩ else ⟨false, prev⟩
  else
    ⟨false, Direction.NONE⟩

/-- One scan step seen by a single (owner, instrument) pair: the detector runs
on the stored direction and the new sample; the orchestrator stores the
returned direction and records an alert when the decision fires. -/
def step (upper lower : ℚ) (prev : Direction) (price : ℚ) :
    Direction × Option (ℚ × Direction) :=
  let d := CrossingDetector.decide prev price upper lower
  (d.direction, if d.fires then some (price, d.direction) else none)

/-- Run the detector over a price sequence, threading the stored direction and
collecting the fired alerts as `(price, direction)` pairs in scan order. -/
def run (upper lower : ℚ) (prev : Direction) : List ℚ → Direction × List (ℚ × Direction)
  | [] => (prev, [])
  | p :: ps =>
    let s := step upper lower prev p
    let r := run upper lower s.1 ps
    (r.1, s.2.toList ++ r.2)

end CrossingDetector

/-- Embeds `StockCard.priceChangeStatus`: the card's price-vs-threshold
classification.  The component computes
`!current_price ? 'neutral' : current_price > upper_threshold ? 'positive' :
current_price < lower_threshold ? 'negative' : 'neutral'`; JavaScript
truthiness makes both a missing price and a price of exactly `0` fall into
the `'neutral'` branch, hence the explicit zero test. -/
def priceChangeStatus (current_price : Option ℚ) (upper_threshold lower_threshold : ℚ) :
    String :=
  match current_price with
  | none => "neutral"
  | some p =>
    if p = 0 then "neutral"
    else if p > upper_threshold then "positive"
    else if p < lower_threshold then "negative"
    else "neutral"

end FinTechAI

namespace FinTechAI

/-- C1: with `lower < upper`, the crossing decision fires UP with new
direction UP exactly when `price > upper` and the previous direction is not
UP; fires DOWN with new direction DOWN exactly when `price < lower` and the
previous direction is not DOWN; never fires and resets to NONE when
`lower ≤ price ≤ upper`; and does not fire when the price is still beyond the
same threshold as the last fire.  `StockCard.priceChangeStatus` classifies a
(nonzero) rendered price with the same strict comparisons, with no
previous-direction input. -/
theorem crossing_decision_cases (prev : Direction) (price upper lower : ℚ)
    (hlu : lower < upper) :
    (((CrossingDetector.decide prev price upper lower).fires = true ∧
        (CrossingDetector.decide prev price upper lower).direction = Direction.UP) ↔
      (upper < price ∧ prev ≠ Direction.UP)) ∧
    (((CrossingDetector.decide prev price upper lower).fires = true ∧
        (CrossingDetector.decide prev price upper lower).direction = Direction.DOWN) ↔
      (price < lower ∧ prev ≠ Direction.DOWN)) ∧
    (lower ≤ price ∧ price ≤ upper →
      CrossingDetector.decide prev price upper lower = ⟨false, Direction.NONE⟩) ∧
    ((upper < price ∧ prev = Direction.UP) ∨ (price < lower ∧ prev = Direction.DOWN) →
      (CrossingDetector.decide prev price upper lower).fires = false) ∧
    (price ≠ 0 →
      ((priceChangeStatus (some price) upper lower = "positive" ↔ upper < price) ∧
       (priceChangeStatus (some price) upper lower = "negative" ↔ price < lower) ∧
       (priceChangeStatus (some price) upper lower = "neutral" ↔
         (lower ≤ price ∧ price ≤ upper)))) := by
  refine ⟨?_, ?_, ?_, ?_, ?_⟩
  · unfold CrossingDetector.decide
    split_ifs with h1 h2 h3 h4 <;> simp_all <;>
      first
        | linarith
        | (intro h; linarith)
        | (intro h; exact absurd h (by linarith))
  · unfold CrossingDetector.decide
    split_ifs with h1 h2 h3 h4 <;> simp_all <;>
      first
        | linarith
        | (intro h; linarith)
        | (intro h; exact absurd h (by linarith))
  · unfold CrossingDetector.decide
    split_ifs with h1 h2 h3 h4 <;> simp_all <;> intros <;> exfalso <;> linarith
  · unfold CrossingDetector.decide
    rintro (⟨h, h'⟩ | ⟨h, h'⟩) <;> subst h' <;> split_ifs <;> simp_all <;> linarith
  · intro hp0
    simp only [priceChangeStatus]
    split_ifs with h0 h1 h2 <;> simp_all <;>
      first
        | linarith
        | (intro h; linarith)
        | (intro h; exact absurd h (by linarith))
        | (constructor <;>
            first
              | linarith
              | (intro h; linarith)
              | (intro h; exact absurd h (by linarith))
              | (rintro ⟨h, h'⟩ <;> linarith))

/-- Witness for C1 at `prev = NONE`, `price = 105`, `upper = 100`,
`lower = 90`. -/
theorem crossing_decision_cases_witness :
    (90 : ℚ) < 100 ∧
    ((((CrossingDetector.decide Direction.NONE 105 100 90).fires = true ∧
        (CrossingDetector.decide Direction.NONE 105 100 90).direction = Direction.UP) ↔
      ((100 : ℚ) < 105 ∧ Direction.NONE ≠ Direction.UP)) ∧
    (((CrossingDetector.decide Direction.NONE 105 100 90).fires = true ∧
        (CrossingDetector.decide Direction.NONE 105 100 90).direction = Direction.DOWN) ↔
      ((105 : ℚ) < 90 ∧ Direction.NONE ≠ Direction.DOWN)) ∧
    ((90 : ℚ) ≤ 105 ∧ (105 : ℚ) ≤ 100 →
      CrossingDetector.decide Direction.NONE 105 100 90 = ⟨false, Direction.NONE⟩) ∧
    (((100 : ℚ) < 105 ∧ Direction.NONE = Direction.UP) ∨
        ((105 : ℚ) < 90 ∧ Direction.NONE = Direction.DOWN) →
      (CrossingDetector.decide Direction.NONE 105 100 90).fires = false) ∧
    ((105 : ℚ) ≠ 0 →
      ((priceChangeStatus (some 105) 100 90 = "positive" ↔ (100 : ℚ) < 105) ∧
       (priceChangeStatus (some 105) 100 90 = "negative" ↔ (105 : ℚ) < 90) ∧
       (priceChangeStatus (some 105) 100 90 = "neutral" ↔
         ((90 : ℚ) ≤ 105 ∧ (105 : ℚ) ≤ 100))))) :=
  ⟨by norm_num, crossing_decision_cases Direction.NONE 105 100 90 (by norm_num)⟩

/-- While every sample stays strictly above the upper threshold, a detector
armed UP fires nothing and stays armed UP. -/
theorem run_above_upper (u l : ℚ) (ps : List ℚ) (h : ∀ q ∈ ps, u < q) :
    CrossingDetector.run u l Direction.UP ps = (Direction.UP, []) := by
  induction ps with
  | nil => rfl
  | cons p ps ih =>
    have hp : u < p := h p (by simp)
    have hps : ∀ q ∈ ps, u < q := fun q hq => h q (by simp [hq])
    have hstep : CrossingDetector.step u l Direction.UP p = (Direction.UP, none) := by
      simp [CrossingDetector.step, CrossingDetector.decide, hp]
    simp [CrossingDetector.run, hstep, ih hps]

/-- While every sample stays strictly below the lower threshold, a detector
armed DOWN fires nothing and stays armed DOWN. -/
theorem run_below_lower (u l : ℚ) (hlu : l < u) (ps : List ℚ) (h : ∀ q ∈ ps, q < l) :
    CrossingDetector.run u l Direction.DOWN ps = (Direction.DOWN, []) := by
  induction ps with
  | nil => rfl
  | cons p ps ih =>
    have hp : p < l := h p (by simp)
    have hpu : ¬u < p := not_lt.mpr (le_of_lt (lt_trans hp hlu))
    have hps : ∀ q ∈ ps, q < l := fun q hq => h q (by simp [hq])
    have hstep : CrossingDetector.step u l Direction.DOWN p = (Direction.DOWN, none) := by
      simp [CrossingDetector.step, CrossingDetector.decide, hp, hpu]
    simp [CrossingDetector.run, hstep, ih hps]

/-- C2 counterexample: with `upper = 100`, `lower = 90`, the sequence
`105, 85, 105` contains no sample inside `[90, 100]`, yet it produces a second
UP alert — crossing the opposite threshold also re-arms a direction, so a
round trip inside the band is not required before the same direction fires
again. -/
theorem detector_rearms_without_inband_sample :
    (CrossingDetector.run 100 90 Direction.NONE [105, 85, 105]).2 =
      [(105, Direction.UP), (85, Direction.DOWN), (105, Direction.UP)] ∧
    ∀ q ∈ [(105 : ℚ), 85, 105], ¬(90 ≤ q ∧ q ≤ 100) := by
  constructor
  · decide
  · decide

/-- C2 as amended: from direction NONE, a fixed out-of-band price repeated for
`N ≥ 1` consecutive scans fires exactly one alert; no further alert fires
while samples remain beyond the same threshold, and re-arming happens when a
sample returns inside `[lower, upper]` or crosses the opposite threshold; the
sequence `95, 105, 95, 85` with `upper = 100`, `lower = 90` yields exactly the
two alerts UP at 105 and DOWN at 85. -/
theorem detector_idempotent_under_repeats (u l : ℚ) (hlu : l < u) :
    (∀ p : ℚ, u < p → ∀ n : ℕ, 1 ≤ n →
      (CrossingDetector.run u l Direction.NONE (List.replicate n p)).2 =
        [(p, Direction.UP)]) ∧
    (∀ p : ℚ, p < l → ∀ n : ℕ, 1 ≤ n →
      (CrossingDetector.run u l Direction.NONE (List.replicate n p)).2 =
        [(p, Direction.DOWN)]) ∧
    (∀ ps : List ℚ, (∀ q ∈ ps, u < q) →
      (CrossingDetector.run u l Direction.UP ps).2 = []) ∧
    (∀ ps : List ℚ, (∀ q ∈ ps, q < l) →
      (CrossingDetector.run u l Direction.DOWN ps).2 = []) ∧
    (CrossingDetector.run 100 90 Direction.NONE [95, 105, 95, 85]).2 =
      [(105, Direction.UP), (85, Direction.DOWN)] := by
  refine ⟨?_, ?_, ?_, ?_, by decide⟩
  · intro p hp n hn
    obtain ⟨m, rfl⟩ : ∃ m, n = m + 1 := ⟨n - 1, by omega⟩
    have hstep : CrossingDetector.step u l Direction.NONE p =
        (Direction.UP, some (p, Direction.UP)) := by
      simp [CrossingDetector.step, CrossingDetector.decide, hp]
    have hrest : CrossingDetector.run u l Direction.UP (List.replicate m p) =
        (Direction.UP, []) :=
      run_above_upper u l _ (fun q hq => by rw [List.eq_of_mem_replicate hq]; exact hp)
    simp [List.replicate_succ, CrossingDetector.run, hstep, hrest]
  · intro p hp n hn
    obtain ⟨m, rfl⟩ : ∃ m, n = m + 1 := ⟨n - 1, by omega⟩
    have hpu : ¬u < p := not_lt.mpr (le_of_lt (lt_trans hp hlu))
    have hstep : CrossingDetector.step u l Direction.NONE p =
        (Direction.DOWN, some (p, Direction.DOWN)) := by
      simp [CrossingDetector.step, CrossingDetector.decide, hp, hpu]
    have hrest : CrossingDetector.run u l Direction.DOWN (List.replicate m p) =
        (Direction.DOWN, []) :=
      run_below_lower u l hlu _ (fun q hq => by rw [List.eq_of_mem_replicate hq]; exact hp)
    simp [List.replicate_succ, CrossingDetector.run, hstep, hrest]
  · exact fun ps h => by rw [run_above_upper u l ps h]
  · exact fun ps h => by rw [run_below_lower u l hlu ps h]

/-- Witness for C2 (amended) at `upper = 100`, `lower = 90`, price `105`
repeated `3` times. -/
theorem detector_idempotent_under_repeats_witness :
    (90 : ℚ) < 100 ∧ (100 : ℚ) < 105 ∧ (1 : ℕ) ≤ 3 ∧
    (CrossingDetector.run 100 90 Direction.NONE (List.replicate 3 105)).2 =
      [(105, Direction.UP)] :=
  ⟨by norm_num, by norm_num, by norm_num,
    (detector_idempotent_under_repeats 100 90 (by norm_num)).1 105 (by norm_num) 3
      (by norm_num)⟩

/-- A numeric form field as the threshold handlers see it: whether the raw
string is truthy (nonempty), and the result of `parseFloat`
(`none` embeds `NaN`). -/
structure FormInput where
  nonempty : Bool
  parsed : Option ℚ
deriving DecidableEq, Repr

/-- Outcome of `StockSearch.handleAddStock`: one of the three validation
alerts, or the `addStock` API call with the parsed thresholds. -/
inductive AddStockOutcome where
  | alertIncomplete
  | alertNotNumber
  | alertLowerNotBelowUpper
  | callsAddStock (upper lower : ℚ)
deriving DecidableEq, Repr

/-- Embeds `StockSearch.handleAddStock`: guards in source order — missing selection
or empty field, `isNaN` on either parse, `lower >= upper` — and otherwise
invokes the `addStock` API.  No positivity check appears in this handler. -/
def handleAddStock (hasSelectedStock : Bool) (upperThreshold lowerThreshold : FormInput) :
    AddStockOutcome :=
  if !hasSelectedStock || !upperThreshold.nonempty || !lowerThreshold.nonempty then
    AddStockOutcome.alertIncomplete
  else
    match upperThreshold.parsed, lowerThreshold.parsed with
    | some upper, some lower =>
      if upper ≤ lower then AddStockOutcome.alertLowerNotBelowUpper
      else AddStockOutcome.callsAddStock upper lower
    | _, _ => AddStockOutcome.alertNotNumber

/-- Outcome of `EditStockForm.handleSubmit`: one of the three validation
error messages, or the `onSubmit`/`updateStock` call with the parsed
thresholds. -/
inductive EditStockOutcome where
  | errorNotNumber
  | errorLowerNotBelowUpper
  | errorNotPositive
  | callsUpdateStock (upper lower : ℚ)
deriving DecidableEq, Repr

/-- Embeds `EditStockForm.handleSubmit`: validation in source order — `isNaN` on
either parse, `lowerValue >= upperValue`, `upperValue <= 0 || lowerValue <= 0`
— and otherwise calls `onSubmit` (which the dashboard wires to the
`updateStock` API). -/
def handleSubmit (upperThreshold lowerThreshold : Option ℚ) : EditStockOutcome :=
  match upperThreshold, lowerThreshold with
  | some upperValue, some lowerValue =>
    if upperValue ≤ lowerValue then EditStockOutcome.errorLowerNotBelowUpper
    else if upperValue ≤ 0 ∨ lowerValue ≤ 0 then EditStockOutcome.errorNotPositive
    else EditStockOutcome.callsUpdateStock upperValue lowerValue
  | _, _ => EditStockOutcome.errorNotNumber

/-- Holds (`true`) exactly when `handleAddStock` reaches the `addStock` API call. -/
def addStockCallsApi (hasSelectedStock : Bool) (upperThreshold lowerThreshold : FormInput) :
    Bool :=
  match handleAddStock hasSelectedStock upperThreshold lowerThreshold with
  | AddStockOutcome.callsAddStock _ _ => true
  | _ => false

/-- Holds (`true`) exactly when `handleSubmit` reaches the `updateStock` call. -/
def editStockCallsApi (upperThreshold lowerThreshold : Option ℚ) : Bool :=
  match handleSubmit upperThreshold lowerThreshold with
  | EditStockOutcome.callsUpdateStock _ _ => true
  | _ => false

/-- C3 counterexample: the add-stock handler accepts `upper = 10`,
`lower = -5` and invokes the `addStock` API although the invariant
`upper_threshold > lower_threshold > 0` is violated (`-5 > 0` fails): the
positivity half of the invariant is not validated on the add path. -/
theorem addStock_accepts_nonpositive_lower :
    handleAddStock true ⟨true, some 10⟩ ⟨true, some (-5)⟩ =
      AddStockOutcome.callsAddStock 10 (-5) ∧
    ¬((-5 : ℚ) > 0) := by
  constructor
  · decide
  · norm_num

/-- C3 as amended: the add-stock handler invokes `addStock` iff a stock is
selected, both fields are nonempty and parse to numbers, and
`lower < upper` — positivity is not checked there; the edit-stock handler
invokes `updateStock` iff both fields parse to numbers and
`upper > lower > 0` holds; in every other case the handler returns a
validation alert/error and no persistence call is made. -/
theorem threshold_validation_before_persistence (sel : Bool)
    (uIn lIn : FormInput) (uEdit lEdit : Option ℚ) :
    (addStockCallsApi sel uIn lIn = true ↔
      (sel = true ∧ uIn.nonempty = true ∧ lIn.nonempty = true ∧
        ∃ u' l' : ℚ, uIn.parsed = some u' ∧ lIn.parsed = some l' ∧ l' < u')) ∧
    (editStockCallsApi uEdit lEdit = true ↔
      (∃ u' l' : ℚ, uEdit = some u' ∧ lEdit = some l' ∧ u' > l' ∧ l' > 0)) := by
  constructor
  · unfold addStockCallsApi handleAddStock
    rcases sel with _ | _ <;>
      rcases uIn with ⟨une, up⟩ <;>
      rcases lIn with ⟨lne, lp⟩ <;>
      rcases une with _ | _ <;>
      rcases lne with _ | _ <;>
      rcases up with _ | u' <;>
      rcases lp with _ | l' <;>
      simp_all <;>
      split_ifs with h <;>
      simp_all <;>
      linarith
  · unfold editStockCallsApi handleSubmit
    rcases uEdit with _ | u' <;> rcases lEdit with _ | l' <;> simp_all <;>
      split_ifs with h1 h2 <;> simp_all <;>
      first
        | linarith
        | (rcases h2 with h2 | h2 <;> linarith)
        | (push_neg at h2; constructor <;> intro h <;> linarith)

/-- Witness for C3 (amended) at `sel = true`, add inputs `10`/`5`, edit inputs
`some 10`/`some 5`. -/
theorem threshold_validation_before_persistence_witness :
    (addStockCallsApi true ⟨true, some 10⟩ ⟨true, some 5⟩ = true ↔
      (true = true ∧ (true : Bool) = true ∧ (true : Bool) = true ∧
        ∃ u' l' : ℚ, (some (10 : ℚ) = some u') ∧ (some (5 : ℚ) = some l') ∧ l' < u')) ∧
    (editStockCallsApi (some 10) (some 5) = true ↔
      (∃ u' l' : ℚ, (some (10 : ℚ) = some u') ∧ (some (5 : ℚ) = some l') ∧
        u' > l' ∧ l' > 0)) :=
  threshold_validation_before_persistence true ⟨true, some 10⟩ ⟨true, some 5⟩
    (some 10) (some 5)

/-- Pagination metadata attached to an alert-log page: the shape of
`AlertLogResponse.pagination` consumed by `AlertLogPage`. -/
structure PaginationMeta where
  page : ℕ
  page_size : ℕ
  total_count : ℕ
  total_pages : ℕ
  has_next : Bool
  has_prev : Bool
deriving DecidableEq, Repr

/-- Modelled from the spec: the Alert Log Store `query` of §4.4 — offset-based
pagination with explicit `has_next`/`has_prev` and total count.  The
server-side store is absent from the repository snapshot; page `p` serves the
rows after offset `(p-1)*s`, `has_next` holds while rows remain past this
page, `has_prev` past page 1. -/
def paginate {α : Type} (rows : List α) (page page_size : ℕ) :
    List α × PaginationMeta :=
  ((rows.drop ((page - 1) * page_size)).take page_size,
    { page := page
      page_size := page_size
      total_count := rows.length
      total_pages := (rows.length + page_size - 1) / page_size
      has_next := decide (page * page_size < rows.length)
      has_prev := decide (1 < page) })

/-- Embeds `AlertLogPage`'s rendered range start: `(pagination.page - 1) *
pagination.page_size + 1`. -/
def displayRangeStart (m : PaginationMeta) : ℕ := (m.page - 1) * m.page_size + 1

/-- Embeds `AlertLogPage`'s rendered range end:
`Math.min(pagination.page * pagination.page_size, pagination.total_count)`. -/
def displayRangeEnd (m : PaginationMeta) : ℕ := min (m.page * m.page_size) m.total_count

/-- Embeds `AlertLogPage`'s previous-page button: `disabled={!pagination.has_prev}`. -/
def prevButtonEnabled (m : PaginationMeta) : Bool := m.has_prev

/-- Embeds `AlertLogPage`'s next-page button: `disabled={!pagination.has_next}`. -/
def nextButtonEnabled (m : PaginationMeta) : Bool := m.has_next

/-- C4: for a page number `p ≥ 1` and page size `s` over `n` rows, the rows
served are exactly rows `(p-1)*s+1` through `min(p*s, n)` of the log (as the
initial-segment slice `(rows.take (p*s)).drop ((p-1)*s)`, which
`AlertLogPage` also displays as that 1-based range); `has_next` holds iff
rows remain past this page and `has_prev` iff `p > 1`, and the page
navigation buttons are enabled exactly on `has_next`/`has_prev`; for
`p = 2`, `s = 10`, `n = 25` this is rows 11–20 with both flags true. -/
theorem alertlog_pagination {α : Type} (rows : List α) (p s : ℕ) (hp : 1 ≤ p) :
    (paginate rows p s).1 = (rows.take (p * s)).drop ((p - 1) * s) ∧
    ((paginate rows p s).2.has_next = true ↔ p * s < rows.length) ∧
    ((paginate rows p s).2.has_prev = true ↔ 1 < p) ∧
    nextButtonEnabled (paginate rows p s).2 = (paginate rows p s).2.has_next ∧
    prevButtonEnabled (paginate rows p s).2 = (paginate rows p s).2.has_prev ∧
    displayRangeStart (paginate rows p s).2 = (p - 1) * s + 1 ∧
    displayRangeEnd (paginate rows p s).2 = min (p * s) rows.length ∧
    (paginate (List.range' 1 25) 2 10 =
      ([11, 12, 13, 14, 15, 16, 17, 18, 19, 20],
        { page := 2, page_size := 10, total_count := 25, total_pages := 3,
          has_next := true, has_prev := true })) := by
  refine ⟨?_, by simp [paginate], by simp [paginate], rfl, rfl, rfl, rfl, by decide⟩
  rw [List.drop_take]
  have : p * s - (p - 1) * s = s := by
    obtain ⟨m, rfl⟩ : ∃ m, p = m + 1 := ⟨p - 1, by omega⟩
    simp [Nat.succ_mul]
  rw [this, paginate]

/-- Witness for C4 at 25 rows, page 2, page size 10. -/
theorem alertlog_pagination_witness :
    (1 : ℕ) ≤ 2 ∧
    (paginate (List.range' 1 25) 2 10).1 =
      ((List.range' 1 25).take (2 * 10)).drop ((2 - 1) * 10) ∧
    ((paginate (List.range' 1 25) 2 10).2.has_next = true ↔
      2 * 10 < (List.range' 1 25).length) ∧
    ((paginate (List.range' 1 25) 2 10).2.has_prev = true ↔ 1 < 2) :=
  ⟨by norm_num,
    (alertlog_pagination (List.range' 1 25) 2 10 (by norm_num)).1,
    (alertlog_pagination (List.range' 1 25) 2 10 (by norm_num)).2.1,
    (alertlog_pagination (List.range' 1 25) 2 10 (by norm_num)).2.2.1⟩

/-- An LLM provider entry as rendered by the settings-driven UI
(`LLMProvider` in `types.ts`): `available` records whether the owner has a
usable configuration for it. -/
structure LLMProvider where
  id : String
  name : String
  description : String
  available : Bool
deriving DecidableEq, Repr

/-- One per-provider AI configuration row (`ai_configurations[providerId]`):
the enabled flag, the truthiness of the stored API key, and the optional
model-name override. -/
structure AIConfig where
  enabled : Bool
  api_key : Bool
  model_name : Option String
deriving DecidableEq, Repr

/-- The slice of the owner's settings that drives provider selection. -/
structure UserSettings where
  ai_configurations : Option (List (String × AIConfig))
  ai_keys_detail : Option (List (String × Bool))
  preferred_llm : Option String
deriving DecidableEq, Repr

/-- The `providerTemplates` table of `getLLMProviders`, in source order. -/
def providerTemplates : List (String × LLMProvider) :=
  [("openai", ⟨"openai", "OpenAI GPT-3.5", "通用型语言模型，适合综合分析", false⟩),
   ("gemini", ⟨"gemini", "Google Gemini Pro", "Google最新模型，多模态能力强", false⟩),
   ("google", ⟨"google", "Google Gemini Pro", "Google最新模型，多模态能力强", false⟩),
   ("deepseek", ⟨"deepseek", "DeepSeek V2", "专业代码和分析模型", false⟩)]

/-- Embeds `getLLMProviders` from `LLMSelector.tsx`: with `ai_configurations`
present, a provider is emitted (available) iff its config is enabled, has a
truthy key, and its id is a template id; with only the legacy
`ai_keys_detail`, every template is emitted with availability taken from the
detail map; if the produced list is empty, the templates are returned as-is
(all unavailable). -/
def getLLMProviders (userSettings : Option UserSettings) : List LLMProvider :=
  let providers : List LLMProvider :=
    match userSettings with
    | none => []
    | some s =>
      match s.ai_configurations with
      | some configs =>
        configs.filterMap fun pc =>
          match providerTemplates.lookup pc.1 with
          | some templ =>
            if pc.2.enabled && pc.2.api_key then
              some { id := pc.1, name := pc.2.model_name.getD templ.name,
                     description := templ.description, available := true }
            else none
          | none => none
      | none =>
        match s.ai_keys_detail with
        | some detail =>
          providerTemplates.map fun pt =>
            { pt.2 with available := (detail.lookup pt.1).getD false }
        | none => []
  if providers.isEmpty then providerTemplates.map (·.2) else providers

/-- Embeds `AnalysisPanel.loadUserSettings`' default-LLM selection: filter the
providers to the enabled ones; prefer `settings.preferred_llm` when it is set
and present among them, else the first enabled provider, else the `'openai'`
initial value. -/
def loadUserSettingsDefaultLLM (s : UserSettings) : String :=
  match (getLLMProviders (some s)).filter (fun q => q.available), s.preferred_llm with
  | [], _ => "openai"
  | p0 :: rest, some pref =>
    if ((p0 :: rest).find? (fun q => q.id == pref)).isSome then pref else p0.id
  | p0 :: _, none => p0.id

/-- The `LLMSelector` dropdown: it renders one option per provider of its
input list whose `available` flag is set, in order. -/
def llmSelectorOptions (availableProviders : List LLMProvider) : List String :=
  (availableProviders.filter (fun q => q.available)).map (fun q => q.id)

/-- Modelled from the spec: the tail of the §4.3 provider-selection chain —
the owner's declared default when enabled, else the first enabled provider in
stable order, else nothing. -/
def selectFromDefault (defaultProvider : Option String) (enabled : List String) :
    Option String :=
  match defaultProvider with
  | some d => if d ∈ enabled then some d else enabled.head?
  | none => enabled.head?

/-- Modelled from the spec: the §4.3 provider-selection chain of
`get_opinion` — `preferred_provider` when given and enabled, else the default
chain.  The orchestration itself is server-side code absent from the
repository snapshot. -/
def selectProvider (preferred defaultProvider : Option String) (enabled : List String) :
    Option String :=
  match preferred with
  | some p => if p ∈ enabled then some p else selectFromDefault defaultProvider enabled
  | none => selectFromDefault defaultProvider enabled

/-- The observable outcome of one `get_opinion` call: the error tag and
message of the returned opinion value, the provider used, and how many
network calls were made. -/
structure AIOpinionOutcome where
  error : Bool
  message : Option String
  provider : Option String
  networkCalls : ℕ
deriving DecidableEq, Repr

/-- Modelled from the spec: `get_opinion` of §4.3, restricted to provider
selection and the no-provider error path — with a selected provider one
gateway call is made; with no enabled provider it returns immediately with
`error=true, message="no provider configured"` and makes no network call. -/
def getOpinion (preferred defaultProvider : Option String) (enabled : List String) :
    AIOpinionOutcome :=
  match selectProvider preferred defaultProvider enabled with
  | some p => ⟨false, none, some p, 1⟩
  | none => ⟨true, some "no provider configured", none, 0⟩

/-- C5: provider selection uses the preferred provider when given and
enabled, else the declared default when enabled, else the first enabled
provider in stable order; with no enabled provider `get_opinion` returns the
`"no provider configured"` error value without a network call.  In the code,
`AnalysisPanel`'s default-LLM choice refines this chain (with
`preferred_llm` as the preferred provider and no separate default), and
`LLMSelector` offers exactly the available providers. -/
theorem provider_selection_chain (preferred defaultProvider : Option String)
    (enabled : List String) (s : UserSettings) (provs : List LLMProvider)
    (pid : String) :
    (∀ p, preferred = some p → p ∈ enabled →
      selectProvider preferred defaultProvider enabled = some p) ∧
    (∀ d, (∀ p, preferred = some p → p ∉ enabled) → defaultProvider = some d →
      d ∈ enabled → selectProvider preferred defaultProvider enabled = some d) ∧
    ((∀ p, preferred = some p → p ∉ enabled) →
      (∀ d, defaultProvider = some d → d ∉ enabled) →
      selectProvider preferred defaultProvider enabled = enabled.head?) ∧
    (enabled = [] →
      getOpinion preferred defaultProvider enabled =
        ⟨true, some "no provider configured", none, 0⟩) ∧
    (loadUserSettingsDefaultLLM s =
      (selectProvider s.preferred_llm none
        (((getLLMProviders (some s)).filter (fun q => q.available)).map
          (fun q => q.id))).getD "openai") ∧
    (pid ∈ llmSelectorOptions provs ↔ ∃ q ∈ provs, q.id = pid ∧ q.available = true) := by
  refine ⟨?_, ?_, ?_, ?_, ?_, ?_⟩
  · rintro p rfl hp
    simp [selectProvider, hp]
  · rintro d hpref rfl hd
    cases hp : preferred with
    | none => simp [selectProvider, selectFromDefault, hd]
    | some p =>
      have := hpref p hp
      simp [selectProvider, selectFromDefault, this, hd]
  · intro hpref hdef
    cases hp : preferred with
    | none =>
      cases hd : defaultProvider with
      | none => simp [selectProvider, selectFromDefault]
      | some d => simp [selectProvider, selectFromDefault, hdef d hd]
    | some p =>
      cases hd : defaultProvider with
      | none => simp [selectProvider, selectFromDefault, hpref p hp]
      | some d => simp [selectProvider, selectFromDefault, hpref p hp, hdef d hd]
  · rintro rfl
    cases hp : preferred with
    | none =>
      cases hd : defaultProvider with
      | none => simp [getOpinion, selectProvider, selectFromDefault]
      | some d => simp [getOpinion, selectProvider, selectFromDefault]
    | some p => cases hd : defaultProvider with
      | none => simp [getOpinion, selectProvider, selectFromDefault]
      | some d => simp [getOpinion, selectProvider, selectFromDefault]
  · unfold loadUserSettingsDefaultLLM
    cases hE : (getLLMProviders (some s)).filter (fun q => q.available) with
    | nil =>
      cases hpref : s.preferred_llm <;>
        simp [selectProvider, selectFromDefault, hpref]
    | cons p0 rest =>
      cases hpref : s.preferred_llm with

      | none => simp [selectProvider, selectFromDefault]
      | some pref =>
        by_cases hmem : pref ∈ (p0 :: rest).map (fun q => q.id)
        · have hfind : ((p0 :: rest).find? (fun q => q.id == pref)).isSome := by
            rw [List.find?_isSome]
            obtain ⟨q, hq, hid⟩ := List.mem_map.mp hmem
            exact ⟨q, hq, by simp [hid]⟩
          have hcond : pref = p0.id ∨ ∃ a ∈ rest, a.id = pref := by
            rcases List.mem_map.mp hmem with ⟨q, hq, hid⟩
            rcases List.mem_cons.mp hq with rfl | hq'
            · exact Or.inl hid.symm
            · exact Or.inr ⟨q, hq', hid⟩
          simp [selectProvider, hfind, hcond]
        · have hfind : ¬((p0 :: rest).find? (fun q => q.id == pref)).isSome := by
            rw [List.find?_isSome]
            rintro ⟨q, hq, hid⟩
            exact hmem (List.mem_map.mpr ⟨q, hq, by simpa using hid⟩)
          have hcond : ¬(pref = p0.id ∨ ∃ a ∈ rest, a.id = pref) := by
            rintro (h | ⟨a, ha, hid⟩)
            · exact hmem (List.mem_map.mpr ⟨p0, List.mem_cons_self p0 rest, h.symm⟩)
            · exact hmem (List.mem_map.mpr ⟨a, List.mem_cons_of_mem p0 ha, hid⟩)
          simp [selectProvider, selectFromDefault, hfind, hcond]
  · simp only [llmSelectorOptions, List.mem_map, List.mem_filter]
    constructor
    · rintro ⟨q, ⟨hq, hav⟩, rfl⟩
      exact ⟨q, hq, rfl, hav⟩
    · rintro ⟨q, hq, rfl, hav⟩
      exact ⟨q, ⟨hq, hav⟩, rfl⟩

/-- Witness for C5 with preferred `gemini` enabled alongside `openai`, an
empty enabled list for the error path, and a concrete settings record. -/
theorem provider_selection_chain_witness :
    (∀ p, some "gemini" = some p → p ∈ ["openai", "gemini"] →
      selectProvider (some "gemini") none ["openai", "gemini"] = some p) ∧
    (getOpinion none none [] = ⟨true, some "no provider configured", none, 0⟩) :=
  ⟨(provider_selection_chain (some "gemini") none ["openai", "gemini"]
      ⟨none, none, none⟩ [] "").1,
    (provider_selection_chain none none [] ⟨none, none, none⟩ [] "").2.2.2.1 rfl⟩

/-- A structured AI opinion as it reaches the UI (`AIAnalysisResult` in
`types.ts`): score, recommendation, three summaries, key reasons, confidence,
provider, and the error tag with its message. -/
structure AIAnalysisResult where
  overall_score : ℚ
  recommendation : String
  technical_summary : String
  fundamental_summary : String
  sentiment_summary : String
  key_reasons : List String
  confidence_level : String
  provider : Option String
  error : Bool
  message : Option String
deriving DecidableEq, Repr

/-- Outcome of one AI gateway call, classified as in §4.3. -/
inductive OpinionCallResult where
  | success (opinion : AIAnalysisResult)
  | timeout
  | non2xx (status : ℕ)
  | malformed
  | missingFields
deriving DecidableEq, Repr

/-- Modelled from the spec: the §4.3 normalization — timeout, non-2xx,
malformed payload and missing required fields each become an opinion value
with `error=true` and a human-readable reason, never an exception.  The
orchestration is server-side code absent from the repository snapshot. -/
def normalizeOpinion : OpinionCallResult → AIAnalysisResult
  | OpinionCallResult.success op => op
  | OpinionCallResult.timeout =>
    ⟨0, "", "", "", "", [], "", none, true, some "provider call timed out"⟩
  | OpinionCallResult.non2xx status =>
    ⟨0, "", "", "", "", [], "", none, true, some s!"provider returned status {status}"⟩
  | OpinionCallResult.malformed =>
    ⟨0, "", "", "", "", [], "", none, true, some "malformed provider payload"⟩
  | OpinionCallResult.missingFields =>
    ⟨0, "", "", "", "", [], "", none, true, some "missing required fields"⟩

/-- What happens to one firing alert: whether its `AlertEvent` is persisted
and handed to the Notification Gateway, and the opinion value attached. -/
structure AlertRecord where
  persisted : Bool
  notified : Bool
  opinion : AIAnalysisResult
deriving DecidableEq, Repr

/-- Modelled from the spec: the firing-alert path of §4.2 — the opinion call
result is attached as a value and the `AlertEvent` is persisted and notified
regardless of that result. -/
def processFiringAlert (call : OpinionCallResult) : AlertRecord :=
  ⟨true, true, normalizeOpinion call⟩

/-- The slice of `AnalysisPanel` state touched by `handleAnalyzeStock`. -/
structure AnalysisPanelState where
  analysisResult : Option AIAnalysisResult
  error : Option String
  isAnalyzing : Bool
deriving DecidableEq, Repr

/-- Embeds `AnalysisPanel.handleAnalyzeStock`: on success the analysis is stored and
the error cleared; on failure the error message is stored, the previous
analysis result is left untouched, and in both cases `isAnalyzing` is reset
by the `finally` block. -/
def handleAnalyzeStock (response : Except String AIAnalysisResult)
    (st : AnalysisPanelState) : AnalysisPanelState :=
  match response with
  | Except.ok analysis =>
    { analysisResult := some analysis, error := none, isAnalyzing := false }
  | Except.error msg =>
    { analysisResult := st.analysisResult, error := some msg, isAnalyzing := false }

/-- The `ai_analysis` field of an alert as `NotificationCard` receives it:
a structured result, a legacy text, or absent. -/
inductive AiAnalysisField where
  | structured (a : AIAnalysisResult)
  | text (s : String)
deriving DecidableEq, Repr

/-- The alert fields `NotificationCard.getAIAnalysisContent` reads. -/
structure NotificationAlert where
  ai_analysis : Option AiAnalysisField
  ai_analysis_summary : Option String
deriving DecidableEq, Repr

/-- The content block `getAIAnalysisContent` produces for rendering. -/
structure AIContent where
  hasStructuredAnalysis : Bool
  score : Option ℚ
  recommendation : Option String
  summary : Option String
  confidence : Option String
  provider : Option String
deriving DecidableEq, Repr

/-- Embeds `NotificationCard.getAIAnalysisContent`: structured analysis first, then
the legacy text form of `ai_analysis`, then the `ai_analysis_summary`
fallback, else nothing — the card renders in every case. -/
def getAIAnalysisContent (alert : NotificationAlert) : Option AIContent :=
  match alert.ai_analysis with
  | some (AiAnalysisField.structured a) =>
    some ⟨true, some a.overall_score, some a.recommendation,
      some a.technical_summary, some a.confidence_level, a.provider⟩
  | some (AiAnalysisField.text s) => some ⟨false, none, none, some s, none, none⟩
  | none =>
    match alert.ai_analysis_summary with
    | some s => some ⟨false, none, none, some s, none, none⟩
    | none => none

/-- What `AIAnalysisDisplay` renders for an analysis value. -/
inductive AIAnalysisView where
  | errorBox (message : String)
  | fullAnalysis
deriving DecidableEq, Repr

/-- Embeds `AIAnalysisDisplay`'s top-level branch: an error-tagged analysis renders
the error box with `analysis.message` (or the default text); otherwise the
full analysis is rendered. -/
def aiAnalysisDisplayView (analysis : AIAnalysisResult) : AIAnalysisView :=
  if analysis.error then
    AIAnalysisView.errorBox (analysis.message.getD "分析服务遇到问题，请稍后重试")
  else AIAnalysisView.fullAnalysis

/-- C6: a failing AI opinion call (timeout, non-2xx, malformed payload or
missing fields) yields an error-tagged opinion value; the alert is still
persisted and notified with that value attached; the frontend catches an
analysis failure into an error message while keeping the previous analysis
state, and an error-tagged analysis renders as an error box rather than
failing. -/
theorem opinion_failure_is_value (call : OpinionCallResult) (msg : String)
    (st : AnalysisPanelState) (a : AIAnalysisResult) :
    ((processFiringAlert call).persisted = true ∧
      (processFiringAlert call).notified = true) ∧
    ((∀ op, call ≠ OpinionCallResult.success op) →
      (processFiringAlert call).opinion.error = true) ∧
    ((handleAnalyzeStock (Except.error msg) st).error = some msg ∧
      (handleAnalyzeStock (Except.error msg) st).analysisResult = st.analysisResult ∧
      (handleAnalyzeStock (Except.error msg) st).isAnalyzing = false) ∧
    (a.error = true →
      aiAnalysisDisplayView a =
        AIAnalysisView.errorBox (a.message.getD "分析服务遇到问题，请稍后重试")) := by
  refine ⟨⟨rfl, rfl⟩, ?_, ⟨rfl, rfl, rfl⟩, ?_⟩
  · intro h
    cases call with
    | success op => exact absurd rfl (h op)
    | timeout => rfl
    | non2xx status => rfl
    | malformed => rfl
    | missingFields => rfl
  · intro herr
    simp [aiAnalysisDisplayView, herr]

/-- Witness for C6 at a timed-out call, the error message shown by the panel,
an empty panel state, and the normalized timeout opinion. -/
theorem opinion_failure_is_value_witness :
    ((∀ op, OpinionCallResult.timeout ≠ OpinionCallResult.success op) →
      (processFiringAlert OpinionCallResult.timeout).opinion.error = true) ∧
    (processFiringAlert OpinionCallResult.timeout).opinion.error = true ∧
    ((normalizeOpinion OpinionCallResult.timeout).error = true →
      aiAnalysisDisplayView (normalizeOpinion OpinionCallResult.timeout) =
        AIAnalysisView.errorBox
          ((normalizeOpinion OpinionCallResult.timeout).message.getD
            "分析服务遇到问题，请稍后重试")) :=
  ⟨(opinion_failure_is_value OpinionCallResult.timeout "AI分析失败，请稍后重试"
      ⟨none, none, true⟩ (normalizeOpinion OpinionCallResult.timeout)).2.1,
    (opinion_failure_is_value OpinionCallResult.timeout "AI分析失败，请稍后重试"
      ⟨none, none, true⟩ (normalizeOpinion OpinionCallResult.timeout)).2.1
      (fun op h => OpinionCallResult.noConfusion h),
    (opinion_failure_is_value OpinionCallResult.timeout "AI分析失败，请稍后重试"
      ⟨none, none, true⟩ (normalizeOpinion OpinionCallResult.timeout)).2.2.2⟩

/-- A scan trigger source (§4.2): the timer or a manual request. -/
inductive Trigger where
  | TIMER
  | MANUAL
deriving DecidableEq, Repr

/-- What the Scan Orchestrator answers to a trigger. -/
inductive TriggerOutcome where
  | started
  | alreadyRunning
  | droppedTick
deriving DecidableEq, Repr

/-- The observable scheduler state: the single "scan in progress" gate flag,
a count of instrument evaluations performed, and the (always empty) trigger
queue used to state that triggers are never queued. -/
structure SchedulerState where
  scanInProgress : Bool
  evaluationsDone : ℕ
  queuedTriggers : List Trigger
deriving DecidableEq, Repr

/-- Modelled from the spec: the §5 mutual-exclusion gate of the Scan
Orchestrator — with a scan in flight, a MANUAL trigger is rejected with an
"already running" result and a TIMER tick is dropped, both without touching
the state; otherwise the scan starts and evaluates the whole watchlist.
Triggers are never enqueued.  The orchestrator is server-side code absent
from the repository snapshot. -/
def onTrigger (st : SchedulerState) (t : Trigger) (watchlistSize : ℕ) :
    SchedulerState × TriggerOutcome :=
  if st.scanInProgress then
    match t with
    | Trigger.MANUAL => (st, TriggerOutcome.alreadyRunning)
    | Trigger.TIMER => (st, TriggerOutcome.droppedTick)
  else
    ({ st with scanInProgress := true,
               evaluationsDone := st.evaluationsDone + watchlistSize },
      TriggerOutcome.started)

/-- Modelled from the spec: a completed scan releases the gate. -/
def onScanComplete (st : SchedulerState) : SchedulerState :=
  { st with scanInProgress := false }

/-- C7: while a scan is in flight, a manual trigger returns the
"already running" result and leaves the state untouched (in particular, no
instrument evaluation happens), a timer tick is dropped with the state
untouched, and no trigger is ever queued in any state. -/
theorem scan_gate_mutual_exclusion (st : SchedulerState) (n : ℕ)
    (h : st.scanInProgress = true) :
    onTrigger st Trigger.MANUAL n = (st, TriggerOutcome.alreadyRunning) ∧
    (onTrigger st Trigger.MANUAL n).1.evaluationsDone = st.evaluationsDone ∧
    onTrigger st Trigger.TIMER n = (st, TriggerOutcome.droppedTick) ∧
    (∀ (st' : SchedulerState) (t : Trigger) (m : ℕ),
      (onTrigger st' t m).1.queuedTriggers = st'.queuedTriggers) := by
  refine ⟨by simp [onTrigger, h], by simp [onTrigger, h], by simp [onTrigger, h], ?_⟩
  intro st' t m
  unfold onTrigger
  split_ifs with hs
  · cases t <;> rfl
  · rfl

/-- Witness for C7 at a state with a scan in flight and 5 evaluations done,
watchlist size 3. -/
theorem scan_gate_mutual_exclusion_witness :
    onTrigger ⟨true, 5, []⟩ Trigger.MANUAL 3 =
      (⟨true, 5, []⟩, TriggerOutcome.alreadyRunning) ∧
    onTrigger ⟨true, 5, []⟩ Trigger.TIMER 3 =
      (⟨true, 5, []⟩, TriggerOutcome.droppedTick) :=
  ⟨(scan_gate_mutual_exclusion ⟨true, 5, []⟩ 3 rfl).1,
    (scan_gate_mutual_exclusion ⟨true, 5, []⟩ 3 rfl).2.2.1⟩

/-- JavaScript's `String.prototype.trim`, embedded structurally: strip
leading and trailing whitespace characters. -/
def jsTrim (s : String) : String :=
  ⟨((s.data.dropWhile Char.isWhitespace).reverse.dropWhile Char.isWhitespace).reverse⟩

/-- One row of a stock-search response. -/
structure StockSearchResult where
  stock_code : String
  stock_name : String
deriving DecidableEq, Repr

/-- The query parameters `searchStocksAPI` puts in its `URLSearchParams`. -/
structure SearchRequest where
  query : String
  limit : String
deriving DecidableEq, Repr

/-- The possible outcomes of the single HTTP request `searchStocksAPI` can
issue: an ok response with results, a non-ok response whose JSON error body
carries optional `error`/`message` fields, or a network failure. -/
inductive SearchHttpResponse where
  | ok (results : List StockSearchResult)
  | httpError (errField msgField : Option String) (status : ℕ)
  | networkFailure (msg : String)

/-- Embeds `searchStocksAPI` from `apiService.ts`, with the HTTP layer abstracted as
a response function: a blank (all-whitespace) term short-circuits to the
empty result list with no request; otherwise exactly one request is issued
carrying the trimmed term and the stringified limit, and a failing response
is rethrown as `errorData.error || errorData.message || 'Stock search
failed: <status>'`.  Returns the list of issued requests alongside the
result. -/
def searchStocksAPI (searchTerm : String) (limit : ℕ)
    (respond : SearchRequest → SearchHttpResponse) :
    List SearchRequest × Except String (List StockSearchResult) :=
  if jsTrim searchTerm = "" then ([], Except.ok [])
  else
    let req : SearchRequest := ⟨jsTrim searchTerm, toString limit⟩
    ([req],
      match respond req with
      | SearchHttpResponse.ok results => Except.ok results
      | SearchHttpResponse.httpError errField msgField status =>
        Except.error (errField.getD (msgField.getD s!"Stock search failed: {status}"))
      | SearchHttpResponse.networkFailure msg => Except.error msg)

/-- C8: a search term that trims to the empty string returns the empty
result list with no HTTP request issued; any other term issues exactly one
request carrying the trimmed term and the given limit as its query
parameters. -/
theorem searchStocksAPI_request_discipline (searchTerm : String) (limit : ℕ)
    (respond : SearchRequest → SearchHttpResponse) :
    (jsTrim searchTerm = "" →
      searchStocksAPI searchTerm limit respond = ([], Except.ok [])) ∧
    (jsTrim searchTerm ≠ "" →
      (searchStocksAPI searchTerm limit respond).1 =
        [⟨jsTrim searchTerm, toString limit⟩]) := by
  constructor
  · intro h
    simp [searchStocksAPI, h]
  · intro h
    simp [searchStocksAPI, h]

/-- Witness for C8 at the blank term `"  "` and the term `" 平安 "` with
limit 10. -/
theorem searchStocksAPI_request_discipline_witness :
    (jsTrim "  " = "" →
      searchStocksAPI "  " 10 (fun _ => SearchHttpResponse.ok []) =
        ([], Except.ok [])) ∧
    (jsTrim " 平安 " ≠ "" →
      (searchStocksAPI " 平安 " 10 (fun _ => SearchHttpResponse.ok [])).1 =
        [⟨jsTrim " 平安 ", toString 10⟩]) ∧
    jsTrim "  " = "" ∧ jsTrim " 平安 " = "平安" :=
  ⟨(searchStocksAPI_request_discipline "  " 10 (fun _ => SearchHttpResponse.ok [])).1,
    (searchStocksAPI_request_discipline " 平安 " 10
      (fun _ => SearchHttpResponse.ok [])).2,
    by decide, by decide⟩

/-- The session payload (`SessionResponse` in `types.ts`): the authenticated
flag and, when authenticated, the user's email. -/
structure SessionResponse where
  authenticated : Bool
  user : Option String
deriving DecidableEq, Repr

/-- How the body of `checkSession`'s `try` block can stop early: the
handler's own `throw new Error(...)` statement, or a rejection coming out of
`fetch`/`response.json()`. -/
inductive TryFailure where
  | thrown (msg : String)
  | rejected (msg : String)
deriving DecidableEq, Repr

/-- What the network gives `checkSession`: a response with a status code and
a JSON body (`none` = the body fails to parse), or a network error. -/
inductive FetchOutcome where
  | response (status : ℕ) (body : Option SessionResponse)
  | networkError (msg : String)
deriving DecidableEq, Repr

/-- The body of `checkSession`'s `try` block: a non-ok response returns
`{authenticated: false}` for 401 and throws for every other status; an ok
response parses its JSON body; fetch/parse rejections propagate. -/
def checkSessionTry : FetchOutcome → Except TryFailure SessionResponse
  | FetchOutcome.networkError msg => Except.error (TryFailure.rejected msg)
  | FetchOutcome.response status body =>
    if 200 ≤ status ∧ status < 300 then
      match body with
      | some data => Except.ok data
      | none => Except.error (TryFailure.rejected "malformed session payload")
    else if status = 401 then Except.ok ⟨false, none⟩
    else Except.error (TryFailure.thrown s!"Session check failed: {status}")

/-- Embeds `checkSession` from `apiService.ts`: the `catch` block converts every
failure of the `try` body into the value `{authenticated: false}`, so the
function always returns a `SessionResponse` value. -/
def checkSession (o : FetchOutcome) : SessionResponse :=
  match checkSessionTry o with
  | Except.ok s => s
  | Except.error _ => ⟨false, none⟩

/-- C9: `checkSession` returns `{authenticated: false}` as a value on a 401
response, on a network failure, and on a parse failure of an ok response —
it never propagates an exception (it is a total function into
`SessionResponse`) — and its `try` body throws its own error exactly for a
non-401 non-ok HTTP status. -/
theorem checkSession_never_throws (o : FetchOutcome) (status : ℕ)
    (body : Option SessionResponse) (msg : String) :
    checkSession (FetchOutcome.response 401 body) = ⟨false, none⟩ ∧
    checkSession (FetchOutcome.networkError msg) = ⟨false, none⟩ ∧
    (200 ≤ status ∧ status < 300 →
      checkSession (FetchOutcome.response status none) = ⟨false, none⟩) ∧
    ((∃ m, checkSessionTry o = Except.error (TryFailure.thrown m)) ↔
      (∃ s b, o = FetchOutcome.response s b ∧ ¬(200 ≤ s ∧ s < 300) ∧ s ≠ 401)) := by
  refine ⟨?_, rfl, ?_, ?_⟩
  · cases body <;> simp [checkSession, checkSessionTry]
  · intro h
    simp [checkSession, checkSessionTry, h]
  · cases o with
    | networkError m => simp [checkSessionTry]
    | response s b =>
      by_cases hok : 200 ≤ s ∧ s < 300
      · cases b <;> simp [checkSessionTry, hok]
      · by_cases h401 : s = 401
        · subst h401
          simp [checkSessionTry, hok]
        · simp only [checkSessionTry, if_neg hok, if_neg h401]
          constructor
          · intro _
            exact ⟨s, b, rfl, hok, h401⟩
          · intro _
            exact ⟨s!"Session check failed: {s}", rfl⟩

/-- Witness for C9 at a 500 response with an unparsable body, a 204
no-content response, and a network error. -/
theorem checkSession_never_throws_witness :
    checkSession (FetchOutcome.response 401 none) = ⟨false, none⟩ ∧
    checkSession (FetchOutcome.networkError "fetch failed") = ⟨false, none⟩ ∧
    (200 ≤ 204 ∧ 204 < 300 →
      checkSession (FetchOutcome.response 204 none) = ⟨false, none⟩) ∧
    ((∃ m, checkSessionTry (FetchOutcome.response 500 none) =
        Except.error (TryFailure.thrown m)) ↔
      (∃ s b, FetchOutcome.response 500 none = FetchOutcome.response s b ∧
        ¬(200 ≤ s ∧ s < 300) ∧ s ≠ 401)) :=
  ⟨(checkSession_never_throws (FetchOutcome.response 500 none) 204 none
      "fetch failed").1,
    (checkSession_never_throws (FetchOutcome.response 500 none) 204 none
      "fetch failed").2.1,
    (checkSession_never_throws (FetchOutcome.response 500 none) 204 none
      "fetch failed").2.2.1,
    (checkSession_never_throws (FetchOutcome.response 500 none) 204 none
      "fetch failed").2.2.2⟩

/-- JavaScript's `String.prototype.toLowerCase`, embedded structurally:
lower-case every character. -/
def jsToLower (s : String) : String := ⟨s.data.map Char.toLower⟩

/-- The style triple `NotificationCard.getRecommendationStyle` returns:
text colour, badge background, display label. -/
structure RecommendationStyle where
  color : String
  bg : String
  text : String
deriving DecidableEq, Repr

namespace NotificationCard

/-- Embeds `NotificationCard.getRecommendationStyle`: switch on
`recommendation?.toLowerCase()` with `'monitor'` sharing the `default`
branch, so any unrecognized (or absent) value gets the watch style. -/
def getRecommendationStyle (recommendation : Option String) : RecommendationStyle :=
  match recommendation.map jsToLower with
  | some "buy" => ⟨"text-green-600", "bg-green-100", "买入"⟩
  | some "sell" => ⟨"text-red-600", "bg-red-100", "卖出"⟩
  | some "hold" => ⟨"text-blue-600", "bg-blue-100", "持有"⟩
  | _ => ⟨"text-gray-600", "bg-gray-100", "观望"⟩

end NotificationCard

/-- The style triple `AIAnalysisDisplay.getRecommendationStyle` returns:
badge colour, icon, display label. -/
structure RecommendationBadge where
  color : String
  icon : String
  text : String
deriving DecidableEq, Repr

namespace AIAnalysisDisplay

/-- Embeds `AIAnalysisDisplay.getRecommendationStyle`: switch on
`recommendation.toLowerCase()` with `'monitor'` sharing the `default`
branch. -/
def getRecommendationStyle (recommendation : String) : RecommendationBadge :=
  match jsToLower recommendation with
  | "buy" => ⟨"bg-green-600", "↗", "买入"⟩
  | "sell" => ⟨"bg-red-600", "↘", "卖出"⟩
  | "hold" => ⟨"bg-blue-600", "=", "持有"⟩
  | _ => ⟨"bg-gray-600", "👁", "观望"⟩

end AIAnalysisDisplay

/-- C10: both recommendation-to-style mappings are total over all strings —
case-insensitively, `buy`/`sell`/`hold` map to their styles and every other
string (including `monitor`, the empty string, and values outside the
declared set) falls through to the monitor/watch style; the card version
also styles an absent recommendation as watch. -/
theorem recommendation_style_total (r : String) :
    (jsToLower r = "buy" →
      AIAnalysisDisplay.getRecommendationStyle r = ⟨"bg-green-600", "↗", "买入"⟩ ∧
      NotificationCard.getRecommendationStyle (some r) =
        ⟨"text-green-600", "bg-green-100", "买入"⟩) ∧
    (jsToLower r = "sell" →
      AIAnalysisDisplay.getRecommendationStyle r = ⟨"bg-red-600", "↘", "卖出"⟩ ∧
      NotificationCard.getRecommendationStyle (some r) =
        ⟨"text-red-600", "bg-red-100", "卖出"⟩) ∧
    (jsToLower r = "hold" →
      AIAnalysisDisplay.getRecommendationStyle r = ⟨"bg-blue-600", "=", "持有"⟩ ∧
      NotificationCard.getRecommendationStyle (some r) =
        ⟨"text-blue-600", "bg-blue-100", "持有"⟩) ∧
    (jsToLower r ≠ "buy" → jsToLower r ≠ "sell" → jsToLower r ≠ "hold" →
      AIAnalysisDisplay.getRecommendationStyle r = ⟨"bg-gray-600", "👁", "观望"⟩ ∧
      NotificationCard.getRecommendationStyle (some r) =
        ⟨"text-gray-600", "bg-gray-100", "观望"⟩) ∧
    NotificationCard.getRecommendationStyle none =
      ⟨"text-gray-600", "bg-gray-100", "观望"⟩ := by
  refine ⟨?_, ?_, ?_, ?_, rfl⟩ <;>
    first
      | (intro h
         constructor <;>
           simp [AIAnalysisDisplay.getRecommendationStyle,
             NotificationCard.getRecommendationStyle, h])
      | (intro h1 h2 h3
         constructor <;>
           simp [AIAnalysisDisplay.getRecommendationStyle,
             NotificationCard.getRecommendationStyle, h1, h2, h3])

/-- Witness for C10 at the mixed-case `"Buy"` and the out-of-set
`"monitor"`. -/
theorem recommendation_style_total_witness :
    (jsToLower "Buy" = "buy" →
      AIAnalysisDisplay.getRecommendationStyle "Buy" = ⟨"bg-green-600", "↗", "买入"⟩ ∧
      NotificationCard.getRecommendationStyle (some "Buy") =
        ⟨"text-green-600", "bg-green-100", "买入"⟩) ∧
    (jsToLower "monitor" ≠ "buy" → jsToLower "monitor" ≠ "sell" →
      jsToLower "monitor" ≠ "hold" →
      AIAnalysisDisplay.getRecommendationStyle "monitor" =
        ⟨"bg-gray-600", "👁", "观望"⟩ ∧
      NotificationCard.getRecommendationStyle (some "monitor") =
        ⟨"text-gray-600", "bg-gray-100", "观望"⟩) ∧
    jsToLower "Buy" = "buy" ∧ jsToLower "monitor" ≠ "hold" :=
  ⟨(recommendation_style_total "Buy").1,
    (recommendation_style_total "monitor").2.2.2.1,
    by decide, by decide⟩

end FinTechAI
